import Mathlib

/-!
Verification of the conversation persistence and request-orchestration logic
of a browser chat client (`src/components/chat-interface.tsx`) and of its two
request-relay handlers (`src/app/api/chat/route.ts` and
`src/app/api/generate-image/route.ts`).

Conventions of the embedding:
* JavaScript strings are Lean `String`s (sequences of code points).
* `Date` values are modelled by their millisecond-since-epoch count as a `Nat`
  (the client only ever creates dates via `new Date()` / `Date.now()`, which
  are non-negative).
* JavaScript truthiness of a string is `≠ ""`; of an array, `≠ []`;
  of a nullable value, `Option.isSome` (with the empty string still falsy).
* Fields that may be `undefined` are `Option`s.
-/

/-- Message role, the `user | assistant` union of the source. -/
inductive Role where
  | user
  | assistant
deriving DecidableEq, Repr

/-- The `Message` interface of `chat-interface.tsx` (lines 15–24). -/
structure Message where
  id : String
  role : Role
  content : String
  timestamp : Nat
  imageUrl : Option String
  imageUrls : Option (List String)
  generatedImage : Option String
  imagePrompt : Option String
deriving DecidableEq, Repr

/-- The `SavedChat` interface of `chat-interface.tsx` (lines 26–32). -/
structure SavedChat where
  id : String
  title : String
  messages : List Message
  createdAt : Nat
  updatedAt : Nat
deriving DecidableEq, Repr

/-- Lower-casing of one character as JavaScript `toLowerCase` does it, for the
alphabets that occur in the keyword list: ASCII `A`–`Z` and the Latin-1
uppercase letters `À`–`Þ` (excluding `×`) map down by 32. -/
def jsToLowerChar (c : Char) : Char :=
  if 65 ≤ c.toNat ∧ c.toNat ≤ 90 then Char.ofNat (c.toNat + 32)
  else if 192 ≤ c.toNat ∧ c.toNat ≤ 222 ∧ c.toNat ≠ 215 then Char.ofNat (c.toNat + 32)
  else c

/-- JavaScript `String.prototype.toLowerCase` (restricted as above). -/
def jsToLower (s : String) : String :=
  ⟨s.data.map jsToLowerChar⟩

/-- JavaScript `String.prototype.includes`: substring containment. -/
def jsIncludes (hay sub : String) : Bool :=
  decide (sub.data <:+: hay.data)

/-- Whitespace characters recognised by JavaScript `String.prototype.trim`
(the ASCII ones; the client only composes input from keyboard text). -/
def isJsWhitespace (c : Char) : Bool :=
  c = ' ' || c = '\t' || c = '\n' || c = '\r' || c = '\x0b' || c = '\x0c'

/-- JavaScript `String.prototype.trim`. -/
def jsTrim (s : String) : String :=
  ⟨((s.data.dropWhile fun c => isJsWhitespace c).reverse.dropWhile
      fun c => isJsWhitespace c).reverse⟩

/-- The fixed multilingual keyword list of `isImageGenerationRequest`
(`chat-interface.tsx` lines 94–98). -/
def imageKeywords : List String :=
  ["gerar imagem", "criar imagem", "desenhar", "ilustrar", "fazer um desenho",
   "generate image", "create image", "draw", "illustrate", "make a drawing",
   "pintar", "pintura", "arte", "art", "painting", "sketch", "esboço"]

/-- `isImageGenerationRequest` (`chat-interface.tsx` lines 93–102): the intent
detector, a case-insensitive substring match against `imageKeywords`. -/
def isImageGenerationRequest (text : String) : Bool :=
  imageKeywords.any fun keyword => jsIncludes (jsToLower text) keyword

/-- `generateChatTitle` (`chat-interface.tsx` lines 194–200).  The date string
used by the fallback (`new Date().toLocaleDateString()`) is passed in as a
parameter. -/
def generateChatTitle (messages : List Message) (dateStr : String) : String :=
  match messages.find? fun msg => decide (msg.role = Role.user) with
  | some firstUserMessage =>
    if firstUserMessage.content ≠ "" then
      String.mk (firstUserMessage.content.data.take 50)
        ++ (if 50 < firstUserMessage.content.data.length then ("...") else (""))
    else ("Conversa ") ++ dateStr
  | none => "Conversa " ++ dateStr

/-- The component state of `ChatInterface` that the claims are about
(the `useState` hooks of `chat-interface.tsx` lines 35–44). -/
structure ChatState where
  messages : List Message
  input : String
  isLoading : Bool
  selectedImages : List String
  savedChats : List SavedChat
  currentChatId : Option String
deriving DecidableEq, Repr

/-- `deleteChat` (`chat-interface.tsx` lines 246–260), in its confirmed
branch (the user accepted the `confirm` dialog). -/
def deleteChat (st : ChatState) (chatId : String) : ChatState :=
  let updatedChats := st.savedChats.filter fun chat => decide (chat.id ≠ chatId)
  let st1 : ChatState := { st with savedChats := updatedChats }
  if st.currentChatId = some chatId then
    { st1 with messages := [], selectedImages := [], input := "", currentChatId := none }
  else st1

/-- The shape of a message as posted to `/api/chat`
(`chat-interface.tsx` lines 335–340, and the `MessageWithImage` interface of
`chat/route.ts` lines 4–9). -/
structure MessageWithImage where
  role : Role
  content : String
  imageUrl : Option String
  imageUrls : Option (List String)
deriving DecidableEq, Repr

/-- Projection of a client `Message` onto the wire shape
(`chat-interface.tsx` lines 335–340). -/
def toWire (m : Message) : MessageWithImage :=
  { role := m.role, content := m.content, imageUrl := m.imageUrl, imageUrls := m.imageUrls }

/-- A network call issued by `handleSubmit`, in order of issue. -/
inductive RelayCall where
  | imageGen (prompt : String)
  | chat (payload : List MessageWithImage)
deriving DecidableEq, Repr

/-- Outcome of the `/api/chat` fetch as observed by the client: either
`data.success` was truthy and `data.message` is the reply, or anything else
happened (non-success envelope, network error, …) and the `catch` runs. -/
inductive ChatApiResult where
  | ok (message : String)
  | fail
deriving DecidableEq, Repr

/-- The locally-synthesized assistant message appended when image generation
fails (`chat-interface.tsx` lines 318–324). -/
def imageFallbackMessage (nowMs : Nat) : Message :=
  { id := toString (nowMs + 1), role := Role.assistant,
    content := "Desculpe, não consegui gerar a imagem. Vou responder com texto.",
    timestamp := nowMs, imageUrl := none, imageUrls := none,
    generatedImage := none, imagePrompt := none }

/-- The assistant message produced by the chat-relay leg of `handleSubmit`:
the reply on success (`lines 347–353`), the locally-synthesized error message
when the fetch fails or the envelope is unsuccessful (`lines 359–365`). -/
def chatOutcomeMessage (nowMs : Nat) : ChatApiResult → Message
  | ChatApiResult.ok m =>
    { id := toString (nowMs + 1), role := Role.assistant, content := m,
      timestamp := nowMs, imageUrl := none, imageUrls := none,
      generatedImage := none, imagePrompt := none }
  | ChatApiResult.fail =>
    { id := toString (nowMs + 1), role := Role.assistant,
      content := "Sorry, I encountered an error. Please try again.",
      timestamp := nowMs, imageUrl := none, imageUrls := none,
      generatedImage := none, imagePrompt := none }

/-- The optimistically appended user message of `handleSubmit`
(`chat-interface.tsx` lines 282–288). -/
def mkUserMessage (st : ChatState) (nowMs : Nat) : Message :=
  { id := toString nowMs, role := Role.user, content := jsTrim st.input,
    timestamp := nowMs, imageUrl := none,
    imageUrls := if st.selectedImages ≠ [] then some st.selectedImages else none,
    generatedImage := none, imagePrompt := none }

/-- The assistant message appended on image-generation success
(`chat-interface.tsx` lines 305–312). -/
def genSuccessMessage (nowMs : Nat) (url prompt : String) : Message :=
  { id := toString (nowMs + 1), role := Role.assistant,
    content := "Aqui está a imagem que você pediu:", timestamp := nowMs,
    imageUrl := none, imageUrls := none, generatedImage := some url,
    imagePrompt := some prompt }

/-- `handleSubmit` (`chat-interface.tsx` lines 278–369) as a state transition.
`nowMs` stands for `Date.now()` during the turn; `genResult` is the value
`generateImage` resolves to (`null` on any failure, else `data.imageUrl`);
`chatResult` is the outcome of the `/api/chat` leg.  Returns the new state
together with the list of relay calls issued, in order.  The empty string is
falsy in JavaScript, so `if (generatedImageUrl)` treats `some ""` like
failure. -/
def handleSubmit (st : ChatState) (nowMs : Nat) (genResult : Option String)
    (chatResult : ChatApiResult) : ChatState × List RelayCall :=
  if (jsTrim st.input = "" ∧ st.selectedImages = []) ∨ st.isLoading = true then
    (st, [])
  else
    let currentInput := jsTrim st.input
    let userMessage : Message := mkUserMessage st nowMs
    let baseMessages := st.messages ++ [userMessage]
    let payload := (st.messages ++ [userMessage]).map toWire
    let chatLeg : ChatState × List RelayCall :=
      ({ st with
          messages := baseMessages ++ [chatOutcomeMessage nowMs chatResult],
          input := "", selectedImages := [], isLoading := false },
       [RelayCall.chat payload])
    let imageFailLeg : ChatState × List RelayCall :=
      ({ st with
          messages := baseMessages ++ [imageFallbackMessage nowMs,
                                       chatOutcomeMessage nowMs chatResult],
          input := "", selectedImages := [], isLoading := false },
       [RelayCall.imageGen currentInput, RelayCall.chat payload])
    if isImageGenerationRequest currentInput = true ∧ st.selectedImages = [] then
      match genResult with
      | some generatedImageUrl =>
        if generatedImageUrl ≠ "" then
          ({ st with
              messages := baseMessages ++
                [genSuccessMessage nowMs generatedImageUrl currentInput],
              input := "", selectedImages := [], isLoading := false },
           [RelayCall.imageGen currentInput])
        else imageFailLeg
      | none => imageFailLeg
    else chatLeg

/-! ## The `/api/chat` relay handler (`src/app/api/chat/route.ts`) -/

/-- One part of a multi-part content block
(`ChatCompletionContentPartText` / `ChatCompletionContentPartImage`). -/
inductive ContentPart where
  | text (text : String)
  | image (url : String)
deriving DecidableEq, Repr

/-- Content of a relayed message: a plain string, or a multi-part block. -/
inductive ChatContent where
  | str (s : String)
  | parts (ps : List ContentPart)
deriving DecidableEq, Repr

/-- A message as relayed to the provider
(`ChatCompletionMessageParam`). -/
structure ProcessedMessage where
  role : Role
  content : ChatContent
deriving DecidableEq, Repr

/-- JavaScript truthiness of the image-reference condition of
`chat/route.ts` line 44: `msg.imageUrl || (msg.imageUrls && msg.imageUrls.length > 0)`
(an empty string and an empty array are falsy). -/
def msgHasImages (msg : MessageWithImage) : Bool :=
  (match msg.imageUrl with
   | some u => decide (u ≠ "")
   | none => false) ||
  (match msg.imageUrls with
   | some l => decide (l ≠ [])
   | none => false)

/-- The image references a message contributes to its multi-part block, in
push order: the single `imageUrl` when truthy (`chat/route.ts` lines 53–60),
then every element of `imageUrls` when that list is non-empty
(lines 63–72). -/
def messageRefs (msg : MessageWithImage) : List String :=
  (match msg.imageUrl with
   | some u => if u ≠ "" then [u] else []
   | none => []) ++
  (match msg.imageUrls with
   | some l => if l ≠ [] then l else []
   | none => [])

/-- The per-message mapping building `processedMessages`
(`chat/route.ts` lines 43–83). -/
def processMessage (msg : MessageWithImage) : ProcessedMessage :=
  if msg.role = Role.user ∧ msgHasImages msg = true then
    { role := Role.user,
      content := ChatContent.parts
        (ContentPart.text
            (if msg.content ≠ "" then msg.content else ("What\x27s in these images?"))
          :: (messageRefs msg).map ContentPart.image) }
  else
    { role := msg.role, content := ChatContent.str msg.content }

/-- `processedMessages` (`chat/route.ts` line 43). -/
def processedMessages (messages : List MessageWithImage) : List ProcessedMessage :=
  messages.map processMessage

/-- The `responseMode` destructuring default of `chat/route.ts` line 36:
`detailed` when the field is absent. -/
def effectiveResponseMode (responseMode : Option String) : String :=
  responseMode.getD ("detailed")

/-- The `max_tokens` derivation of `chat/route.ts` line 183. -/
def maxTokensFor (responseMode : String) : Nat :=
  if responseMode = "detailed" then 3000
  else if responseMode = "balanced" then 2000
  else 1000

/-- The `temperature` derivation of `chat/route.ts` line 184, as an exact
rational (`0.8` / `0.7` / `0.6`). -/
def temperatureFor (responseMode : String) : ℚ :=
  if responseMode = "detailed" then 8 / 10
  else if responseMode = "balanced" then 7 / 10
  else 6 / 10

/-- The JSON body of a `/api/chat` request, as far as the handler inspects it.
`messages = none` models a missing field or a non-array value
(`!messages || !Array.isArray(messages)`). -/
structure ChatRequestBody where
  messages : Option (List MessageWithImage)
  responseMode : Option String
deriving DecidableEq, Repr

/-- Outcome of the upstream `openai.chat.completions.create` call:
`ok content` is a resolved completion whose `choices[0]?.message?.content`
is `content` (`none` models a missing choice or null content); `fail` a
rejected promise. -/
inductive UpstreamChat where
  | ok (content : Option String)
  | fail
deriving DecidableEq, Repr

/-- The JSON response of either handler: HTTP status plus the envelope
fields, each `none` when absent from the body. -/
structure ApiResponse where
  status : Nat
  success : Option Bool
  error : Option String
  message : Option String
  imageUrl : Option String
  prompt : Option String
deriving DecidableEq, Repr

/-- The `POST` handler of `chat/route.ts` (lines 11–204).  `apiKey` is
`process.env.OPENAI_API_KEY` (`none` when unset); `body = none` models a
request whose `req.json()` rejects (malformed JSON), which lands in the outer
`catch`.  The reply text falls back to a canned sentence when the completion
content is null or empty (line 187, `||` on a falsy string). -/
def chatPOST (apiKey : Option String) (body : Option ChatRequestBody)
    (upstream : UpstreamChat) : ApiResponse :=
  match apiKey with
  | none =>
    { status := 500, success := some false,
      error := some ("OpenAI API key not configured"),
      message := none, imageUrl := none, prompt := none }
  | some _ =>
    match body with
    | none =>
      { status := 500, success := some false,
        error := some ("Failed to get response from OpenAI"),
        message := none, imageUrl := none, prompt := none }
    | some b =>
      match b.messages with
      | none =>
        { status := 400, success := none,
          error := some ("Messages array is required"),
          message := none, imageUrl := none, prompt := none }
      | some _ =>
        match upstream with
        | UpstreamChat.fail =>
          { status := 500, success := some false,
            error := some ("Failed to get response from OpenAI"),
            message := none, imageUrl := none, prompt := none }
        | UpstreamChat.ok content =>
          { status := 200, success := some true, error := none,
            message := some
              (match content with
               | some c =>
                 if c ≠ "" then c else ("Sorry, I could not generate a response.")
               | none => "Sorry, I could not generate a response."),
            imageUrl := none, prompt := none }

/-! ## The `/api/generate-image` relay handler
(`src/app/api/generate-image/route.ts`) -/

/-- The JSON body of a `/api/generate-image` request.  `prompt = none` models
a missing field or a non-string value (the `typeof` test of line 24);
the empty string is also rejected by that test, which the handler checks
separately below. -/
structure ImageRequestBody where
  prompt : Option String
deriving DecidableEq, Repr

/-- Outcome of the upstream `openai.images.generate` call: `ok url` is a
resolved response whose `data?.[0]?.url` is `url` (`none` when absent);
`fail` a rejected promise. -/
inductive UpstreamImage where
  | ok (url : Option String)
  | fail
deriving DecidableEq, Repr

/-- The `POST` handler of `generate-image/route.ts` (lines 4–61).  A nominal
upstream success without a usable URL (`!imageUrl`, so also an empty string)
throws and lands in the `catch`. -/
def generateImagePOST (apiKey : Option String) (body : Option ImageRequestBody)
    (upstream : UpstreamImage) : ApiResponse :=
  match apiKey with
  | none =>
    { status := 500, success := some false,
      error := some ("OpenAI API key not configured"),
      message := none, imageUrl := none, prompt := none }
  | some _ =>
    match body with
    | none =>
      { status := 500, success := some false,
        error := some ("Failed to generate image with DALL-E"),
        message := none, imageUrl := none, prompt := none }
    | some b =>
      match b.prompt with
      | none =>
        { status := 400, success := none, error := some ("Prompt is required"),
          message := none, imageUrl := none, prompt := none }
      | some p =>
        if p = "" then
          { status := 400, success := none, error := some ("Prompt is required"),
            message := none, imageUrl := none, prompt := none }
        else
          match upstream with
          | UpstreamImage.fail =>
            { status := 500, success := some false,
              error := some ("Failed to generate image with DALL-E"),
              message := none, imageUrl := none, prompt := none }
          | UpstreamImage.ok url =>
            match url with
            | none =>
              { status := 500, success := some false,
                error := some ("Failed to generate image with DALL-E"),
                message := none, imageUrl := none, prompt := none }
            | some u =>
              if u = "" then
                { status := 500, success := some false,
                  error := some ("Failed to generate image with DALL-E"),
                  message := none, imageUrl := none, prompt := none }
              else
                { status := 200, success := some true, error := none,
                  message := none, imageUrl := some u, prompt := some p }

/-! ## Persistence: `Date` serialization

`saveChat` persists via `JSON.stringify`, which serializes each `Date` through
`Date.prototype.toISOString` (millisecond precision, `YYYY-MM-DDTHH:mm:ss.sssZ`
for years 0–9999); the load effect reconstructs each timestamp with
`new Date(string)`, which parses that exact format as UTC.  Both are modelled
here over the proleptic Gregorian calendar using the standard era-based
day/civil conversion. -/

/-- Day count adjusted for leap days; `fAdj doe / 365` is the year of era of
day-of-era `doe`. -/
def fAdj (doe : Nat) : Nat := doe - doe / 1460 + doe / 36524 - doe / 146096

/-- First day-of-era of year-of-era `y` (March-based reckoning). -/
def ysF (y : Nat) : Nat := 365 * y + y / 4 - y / 100

theorem fAdj_mono_step (d : Nat) : fAdj d ≤ fAdj (d + 1) := by
  unfold fAdj
  omega

theorem fAdj_mono {d e : Nat} (h : d ≤ e) : fAdj d ≤ fAdj e := by
  induction e with
  | zero => simp_all
  | succ k ih =>
    rcases Nat.le_succ_iff.mp h with h1 | h1
    · exact le_trans (ih h1) (fAdj_mono_step k)
    · subst h1; exact le_refl _

theorem ys_step (y : Nat) : ysF y + 365 ≤ ysF (y + 1) ∧ ysF (y + 1) ≤ ysF y + 366 := by
  unfold ysF
  omega

/-- Badness of the two year-boundary checks for year-of-era `y`: zero iff the
year-of-era formula is exact at the first and last day of year `y`. -/
def yBad (y : Nat) : Nat :=
  (fAdj (ysF y) / 365 - y) + (y - fAdj (ysF y) / 365) +
  (fAdj (ysF (y + 1) - 1) / 365 - y) + (y - fAdj (ysF (y + 1) - 1) / 365)

/-- Sum of `yBad` over `[lo, lo + len)` by binary splitting (`fuel` bounds the
recursion depth; a too-small fuel poisons the sum). -/
def yBadSum : Nat → Nat → Nat → Nat
  | 0, lo, len => if len = 0 then 0 else if len = 1 then yBad lo else 1
  | fuel + 1, lo, len =>
    if len = 0 then 0
    else if len = 1 then yBad lo
    else yBadSum fuel lo (len / 2) + yBadSum fuel (lo + len / 2) (len - len / 2)

theorem yBadSum_spec (fuel lo len : Nat) (h : yBadSum fuel lo len = 0) :
    ∀ i, i < len → yBad (lo + i) = 0 := by
  induction fuel generalizing lo len with
  | zero =>
    intro i hi
    simp only [yBadSum] at h
    by_cases h0 : len = 0
    · omega
    · by_cases h1 : len = 1
      · rw [if_neg h0, if_pos h1] at h
        have : i = 0 := by omega
        subst this; simpa using h
      · rw [if_neg h0, if_neg h1] at h
        omega
  | succ k ih =>
    intro i hi
    simp only [yBadSum] at h
    by_cases h0 : len = 0
    · omega
    · by_cases h1 : len = 1
      · rw [if_neg h0, if_pos h1] at h
        have : i = 0 := by omega
        subst this; simpa using h
      · rw [if_neg h0, if_neg h1] at h
        have hl : yBadSum k lo (len / 2) = 0 := by omega
        have hr : yBadSum k (lo + len / 2) (len - len / 2) = 0 := by omega
        by_cases hc : i < len / 2
        · exact ih lo (len / 2) hl i hc
        · have := ih (lo + len / 2) (len - len / 2) hr (i - len / 2) (by omega)
          have e : lo + len / 2 + (i - len / 2) = lo + i := by omega
          rwa [e] at this

set_option maxRecDepth 10000 in
theorem yAllOk : yBadSum 9 0 400 = 0 := by rfl

theorem yBad_eq_zero (y : Nat) (hy : y < 400) : yBad y = 0 := by
  have := yBadSum_spec 9 0 400 yAllOk y hy
  simpa using this

theorem fAdj_ys_start (y : Nat) (hy : y < 400) : fAdj (ysF y) / 365 = y := by
  have := yBad_eq_zero y hy
  unfold yBad at this
  omega

theorem fAdj_ys_end (y : Nat) (hy : y < 400) : fAdj (ysF (y + 1) - 1) / 365 = y := by
  have := yBad_eq_zero y hy
  unfold yBad at this
  omega

/-- Year of era of day-of-era `doe`. -/
def yoeOfDoe (doe : Nat) : Nat := fAdj doe / 365

/-- Day of year (March-based) of day-of-era `doe`. -/
def doyOfDoe (doe : Nat) : Nat := doe - ysF (yoeOfDoe doe)

/-- Shifted month index (`0 ↦ March, …, 11 ↦ February`). -/
def mpOfDoe (doe : Nat) : Nat := (5 * doyOfDoe doe + 2) / 153

/-- Civil month (1–12) of day-of-era `doe`. -/
def monthOfDoe (doe : Nat) : Nat :=
  if mpOfDoe doe < 10 then mpOfDoe doe + 3 else mpOfDoe doe - 9

/-- Civil day of month (1–31) of day-of-era `doe`. -/
def dayOfDoe (doe : Nat) : Nat := doyOfDoe doe - (153 * mpOfDoe doe + 2) / 5 + 1

/-- Civil year of era `era`, day-of-era `doe`. -/
def yearOf (era doe : Nat) : Nat :=
  if monthOfDoe doe ≤ 2 then yoeOfDoe doe + era * 400 + 1 else yoeOfDoe doe + era * 400

/-- Civil `(year, month, day)` of a day count since 1970-01-01. -/
def civilFromDays (z : Nat) : Nat × Nat × Nat :=
  (yearOf ((z + 719468) / 146097) ((z + 719468) % 146097),
   monthOfDoe ((z + 719468) % 146097),
   dayOfDoe ((z + 719468) % 146097))

/-- Day count since 1970-01-01 of the civil date `(y, m, d)` (valid for
dates from 1970 on). -/
def daysFromCivil (y m d : Nat) : Nat :=
  (if m ≤ 2 then y - 1 else y) / 400 * 146097
    + (ysF ((if m ≤ 2 then y - 1 else y) % 400)
        + ((153 * (if 2 < m then m - 3 else m + 9) + 2) / 5 + d - 1))
    - 719468

theorem yoe_facts (doe : Nat) (h : doe ≤ 146096) :
    ysF (yoeOfDoe doe) ≤ doe ∧ doe - ysF (yoeOfDoe doe) ≤ 365 ∧ yoeOfDoe doe ≤ 399 := by
  have hdef : yoeOfDoe doe = fAdj doe / 365 := rfl
  have h399 : yoeOfDoe doe ≤ 399 := by
    have t1 : fAdj doe ≤ fAdj 146096 := fAdj_mono h
    have t2 : fAdj doe / 365 ≤ fAdj 146096 / 365 := Nat.div_le_div_right t1
    have t3 : fAdj 146096 / 365 = 399 := by decide
    omega
  have hlow : ysF (yoeOfDoe doe) ≤ doe := by
    by_cases h0 : yoeOfDoe doe = 0
    · rw [h0]
      have : ysF 0 = 0 := by decide
      omega
    · by_contra hlt
      push_neg at hlt
      have hle : doe ≤ ysF (yoeOfDoe doe) - 1 := by omega
      have hmono : fAdj doe ≤ fAdj (ysF (yoeOfDoe doe) - 1) := fAdj_mono hle
      have hdiv : fAdj doe / 365 ≤ fAdj (ysF (yoeOfDoe doe) - 1) / 365 :=
        Nat.div_le_div_right hmono
      have he : fAdj (ysF ((yoeOfDoe doe - 1) + 1) - 1) / 365 = yoeOfDoe doe - 1 :=
        fAdj_ys_end (yoeOfDoe doe - 1) (by omega)
      have e1 : (yoeOfDoe doe - 1) + 1 = yoeOfDoe doe := by omega
      rw [e1] at he
      omega
  have hhigh : doe - ysF (yoeOfDoe doe) ≤ 365 := by
    by_contra hgt
    push_neg at hgt
    by_cases h399e : yoeOfDoe doe = 399
    · have : ysF 399 = 145731 := by decide
      rw [h399e] at hgt
      omega
    · have hy1 : yoeOfDoe doe + 1 < 400 := by omega
      have hys : ysF (yoeOfDoe doe + 1) ≤ ysF (yoeOfDoe doe) + 366 :=
        (ys_step (yoeOfDoe doe)).2
      have hle : ysF (yoeOfDoe doe + 1) ≤ doe := by omega
      have hmono : fAdj (ysF (yoeOfDoe doe + 1)) ≤ fAdj doe := fAdj_mono hle
      have hdiv : fAdj (ysF (yoeOfDoe doe + 1)) / 365 ≤ fAdj doe / 365 :=
        Nat.div_le_div_right hmono
      have he : fAdj (ysF (yoeOfDoe doe + 1)) / 365 = yoeOfDoe doe + 1 :=
        fAdj_ys_start (yoeOfDoe doe + 1) hy1
      omega
  exact ⟨hlow, hhigh, h399⟩

theorem month_facts (doy : Nat) (h : doy ≤ 365) :
    (153 * ((5 * doy + 2) / 153) + 2) / 5 ≤ doy ∧
    doy - (153 * ((5 * doy + 2) / 153) + 2) / 5 ≤ 30 ∧
    (5 * doy + 2) / 153 ≤ 11 := by
  omega

theorem civil_inv (era doe : Nat) (h : doe ≤ 146096) :
    daysFromCivil (yearOf era doe) (monthOfDoe doe) (dayOfDoe doe)
      = era * 146097 + doe - 719468 := by
  obtain ⟨h1, h2, h3⟩ := yoe_facts doe h
  have hdoyle : doyOfDoe doe ≤ 365 := by
    unfold doyOfDoe
    omega
  obtain ⟨m1, m2, m3⟩ := month_facts (doyOfDoe doe) hdoyle
  have hd : dayOfDoe doe = doyOfDoe doe - (153 * mpOfDoe doe + 2) / 5 + 1 := rfl
  have hdoy : doyOfDoe doe = doe - ysF (yoeOfDoe doe) := rfl
  have hmp : mpOfDoe doe = (5 * doyOfDoe doe + 2) / 153 := rfl
  by_cases hc : mpOfDoe doe < 10
  · have hm : monthOfDoe doe = mpOfDoe doe + 3 := by
      unfold monthOfDoe
      rw [if_pos hc]
    have hy : yearOf era doe = yoeOfDoe doe + era * 400 := by
      unfold yearOf
      rw [hm, if_neg (by omega)]
    rw [hm, hy]
    unfold daysFromCivil
    rw [if_neg (show ¬ (mpOfDoe doe + 3 ≤ 2) by omega),
        if_pos (show 2 < mpOfDoe doe + 3 by omega)]
    have e1 : (yoeOfDoe doe + era * 400) / 400 = era := by omega
    have e2 : (yoeOfDoe doe + era * 400) % 400 = yoeOfDoe doe := by omega
    have e3 : mpOfDoe doe + 3 - 3 = mpOfDoe doe := by omega
    rw [e1, e2, e3]
    omega
  · have hm : monthOfDoe doe = mpOfDoe doe - 9 := by
      unfold monthOfDoe
      rw [if_neg hc]
    have hy : yearOf era doe = yoeOfDoe doe + era * 400 + 1 := by
      unfold yearOf
      rw [hm, if_pos (by omega)]
    rw [hm, hy]
    unfold daysFromCivil
    rw [if_pos (show mpOfDoe doe - 9 ≤ 2 by omega),
        if_neg (show ¬ (2 < mpOfDoe doe - 9) by omega)]
    have e0 : yoeOfDoe doe + era * 400 + 1 - 1 = yoeOfDoe doe + era * 400 := by omega
    rw [e0]
    have e1 : (yoeOfDoe doe + era * 400) / 400 = era := by omega
    have e2 : (yoeOfDoe doe + era * 400) % 400 = yoeOfDoe doe := by omega
    have e3 : mpOfDoe doe - 9 + 9 = mpOfDoe doe := by omega
    rw [e1, e2, e3]
    omega

theorem days_roundtrip (z : Nat) :
    daysFromCivil (civilFromDays z).1 (civilFromDays z).2.1 (civilFromDays z).2.2 = z := by
  have h : (z + 719468) % 146097 ≤ 146096 := by omega
  have hinv := civil_inv ((z + 719468) / 146097) ((z + 719468) % 146097) h
  unfold civilFromDays
  simp only [Prod.fst, Prod.snd]
  rw [hinv]
  omega

theorem month_day_bounds (doe : Nat) (h : doe ≤ 146096) :
    1 ≤ monthOfDoe doe ∧ monthOfDoe doe ≤ 12 ∧
    1 ≤ dayOfDoe doe ∧ dayOfDoe doe ≤ 31 := by
  obtain ⟨h1, h2, h3⟩ := yoe_facts doe h
  have hdoyle : doyOfDoe doe ≤ 365 := by
    unfold doyOfDoe
    omega
  obtain ⟨m1, m2, m3⟩ := month_facts (doyOfDoe doe) hdoyle
  have hd : dayOfDoe doe = doyOfDoe doe - (153 * mpOfDoe doe + 2) / 5 + 1 := rfl
  have hmp : mpOfDoe doe = (5 * doyOfDoe doe + 2) / 153 := rfl
  by_cases hc : mpOfDoe doe < 10
  · have hm : monthOfDoe doe = mpOfDoe doe + 3 := by
      unfold monthOfDoe
      rw [if_pos hc]
    omega
  · have hm : monthOfDoe doe = mpOfDoe doe - 9 := by
      unfold monthOfDoe
      rw [if_neg hc]
    omega

theorem year_ge_1970 (era doe : Nat) (hdoe : doe ≤ 146096)
    (hz : 719468 ≤ era * 146097 + doe) : 1970 ≤ yearOf era doe := by
  obtain ⟨h1, h2, h3⟩ := yoe_facts doe hdoe
  have hyoedef : yoeOfDoe doe = fAdj doe / 365 := rfl
  by_cases hera : 5 ≤ era
  · unfold yearOf
    split <;> omega
  · have hera4 : era = 4 := by omega
    subst hera4
    have hdoe4 : 135080 ≤ doe := by omega
    have hf : fAdj 135080 ≤ fAdj doe := fAdj_mono hdoe4
    have hfv : fAdj 135080 = 134991 := by decide
    have hdiv : fAdj 135080 / 365 ≤ fAdj doe / 365 := Nat.div_le_div_right hf
    have hdv : fAdj 135080 / 365 = 369 := by decide
    have hyoe : 369 ≤ yoeOfDoe doe := by omega
    by_cases h370 : 370 ≤ yoeOfDoe doe
    · unfold yearOf
      split <;> omega
    · have h369 : yoeOfDoe doe = 369 := by omega
      have hys : ysF 369 = 134774 := by decide
      have hdoy : doyOfDoe doe = doe - ysF (yoeOfDoe doe) := rfl
      have hdoyge : 306 ≤ doyOfDoe doe := by
        rw [hdoy, h369, hys]
        omega
      have hdoyle : doyOfDoe doe ≤ 365 := by
        rw [hdoy]
        omega
      obtain ⟨m1, m2, m3⟩ := month_facts (doyOfDoe doe) hdoyle
      have hmp : mpOfDoe doe = (5 * doyOfDoe doe + 2) / 153 := rfl
      have hmpge : 10 ≤ mpOfDoe doe := by omega
      have hm : monthOfDoe doe = mpOfDoe doe - 9 := by
        unfold monthOfDoe
        rw [if_neg (by omega)]
      unfold yearOf
      rw [if_pos (by omega)]
      omega

theorem year_le_9999 (era doe : Nat) (hdoe : doe ≤ 146096)
    (hz : era * 146097 + doe ≤ 3652364) : yearOf era doe ≤ 9999 := by
  obtain ⟨h1, h2, h3⟩ := yoe_facts doe hdoe
  have hera : era ≤ 24 := by omega
  by_cases hera23 : era ≤ 23
  · unfold yearOf
    split <;> omega
  · have hera24 : era = 24 := by omega
    subst hera24
    have hdoe24 : doe ≤ 146036 := by omega
    by_cases h398 : yoeOfDoe doe ≤ 398
    · unfold yearOf
      split <;> omega
    · have h399 : yoeOfDoe doe = 399 := by omega
      have hys : ysF 399 = 145731 := by decide
      have hdoy : doyOfDoe doe = doe - ysF (yoeOfDoe doe) := rfl
      have hdoyle : doyOfDoe doe ≤ 305 := by
        rw [hdoy, h399, hys]
        omega
      have hmp : mpOfDoe doe = (5 * doyOfDoe doe + 2) / 153 := rfl
      have hmplt : mpOfDoe doe < 10 := by omega
      have hm : monthOfDoe doe = mpOfDoe doe + 3 := by
        unfold monthOfDoe
        rw [if_pos hmplt]
      unfold yearOf
      rw [if_neg (by omega)]
      omega

/-- Decimal digit character for `n % 10`. -/
def digitChar (n : Nat) : Char := Char.ofNat (48 + n % 10)

/-- Numeric value of a digit character. -/
def digitVal (c : Char) : Nat := c.toNat - 48

/-- Is `c` one of `'0'`–`'9'`? -/
def isDigitChar (c : Char) : Bool :=
  decide (48 ≤ c.toNat) && decide (c.toNat ≤ 57)

/-- Two-digit zero-padded decimal rendering (exact for `n < 100`). -/
def pad2 (n : Nat) : List Char := [digitChar (n / 10 % 10), digitChar (n % 10)]

/-- Three-digit zero-padded decimal rendering (exact for `n < 1000`). -/
def pad3 (n : Nat) : List Char :=
  [digitChar (n / 100 % 10), digitChar (n / 10 % 10), digitChar (n % 10)]

/-- Four-digit zero-padded decimal rendering (exact for `n < 10000`). -/
def pad4 (n : Nat) : List Char :=
  [digitChar (n / 1000 % 10), digitChar (n / 100 % 10), digitChar (n / 10 % 10),
   digitChar (n % 10)]

/-- `Date.prototype.toISOString` on a timestamp of `t` milliseconds since the
epoch: `YYYY-MM-DDTHH:mm:ss.sssZ` (the four-digit-year form, exact for years
up to 9999). -/
def toISOString (t : Nat) : String :=
  ⟨pad4 (civilFromDays (t / 86400000)).1
    ++ '-' :: pad2 (civilFromDays (t / 86400000)).2.1
    ++ '-' :: pad2 (civilFromDays (t / 86400000)).2.2
    ++ 'T' :: pad2 (t % 86400000 / 3600000)
    ++ ':' :: pad2 (t % 86400000 / 60000 % 60)
    ++ ':' :: pad2 (t % 86400000 / 1000 % 60)
    ++ '.' :: pad3 (t % 86400000 % 1000)
    ++ ['Z']⟩

/-- `new Date(string)` on a UTC date-time string of the ECMAScript Date Time
String Format `YYYY-MM-DDTHH:mm:ss.sssZ`: the parsed millisecond timestamp, or
`none` for anything malformed or out of range (an Invalid Date).  Dates before
1970 are outside the non-negative timestamp domain of this model and are also
mapped to `none`. -/
def parseISOUtc (s : String) : Option Nat :=
  match s.data with
  | [y1, y2, y3, y4, a1, mo1, mo2, a2, d1, d2, a3,
     h1, h2, a4, mi1, mi2, a5, s1, s2, a6, ms1, ms2, ms3, a7] =>
    if ([y1, y2, y3, y4, mo1, mo2, d1, d2, h1, h2, mi1, mi2, s1, s2,
         ms1, ms2, ms3].all isDigitChar) = true
        ∧ a1 = '-' ∧ a2 = '-' ∧ a3 = 'T' ∧ a4 = ':' ∧ a5 = ':' ∧ a6 = '.'
        ∧ a7 = 'Z' then
      let y := 1000 * digitVal y1 + 100 * digitVal y2 + 10 * digitVal y3 + digitVal y4
      let mo := 10 * digitVal mo1 + digitVal mo2
      let dd := 10 * digitVal d1 + digitVal d2
      let hh := 10 * digitVal h1 + digitVal h2
      let mi := 10 * digitVal mi1 + digitVal mi2
      let ss := 10 * digitVal s1 + digitVal s2
      let ms := 100 * digitVal ms1 + 10 * digitVal ms2 + digitVal ms3
      if 1970 ≤ y ∧ 1 ≤ mo ∧ mo ≤ 12 ∧ 1 ≤ dd ∧ dd ≤ 31
          ∧ hh ≤ 24 ∧ mi ≤ 59 ∧ ss ≤ 59 then
        some (daysFromCivil y mo dd * 86400000
          + hh * 3600000 + mi * 60000 + ss * 1000 + ms)
      else none
    else none
  | _ => none

theorem digitChar_toNat (n : Nat) : (digitChar n).toNat = 48 + n % 10 := by
  have h : n % 10 < 10 := Nat.mod_lt _ (by omega)
  unfold digitChar
  generalize n % 10 = k at *
  interval_cases k <;> rfl

theorem isDigitChar_digitChar (n : Nat) : isDigitChar (digitChar n) = true := by
  have h := digitChar_toNat n
  have h10 : n % 10 < 10 := Nat.mod_lt _ (by omega)
  unfold isDigitChar
  rw [h]
  simp only [Bool.and_eq_true, decide_eq_true_eq]
  omega

theorem digitVal_digitChar (n : Nat) : digitVal (digitChar n) = n % 10 := by
  unfold digitVal
  rw [digitChar_toNat]
  omega

theorem parse_format_general (y mo dd hh mi ss ms : Nat)
    (hy1 : 1970 ≤ y) (hy2 : y ≤ 9999) (hmo1 : 1 ≤ mo) (hmo2 : mo ≤ 12)
    (hdd1 : 1 ≤ dd) (hdd2 : dd ≤ 31) (hhh : hh ≤ 23) (hmi : mi ≤ 59)
    (hss : ss ≤ 59) (hms : ms ≤ 999) :
    parseISOUtc ⟨pad4 y ++ '-' :: pad2 mo ++ '-' :: pad2 dd ++ 'T' :: pad2 hh
      ++ ':' :: pad2 mi ++ ':' :: pad2 ss ++ '.' :: pad3 ms ++ ['Z']⟩
      = some (daysFromCivil y mo dd * 86400000
          + hh * 3600000 + mi * 60000 + ss * 1000 + ms) := by
  show parseISOUtc ⟨[digitChar (y / 1000 % 10), digitChar (y / 100 % 10),
    digitChar (y / 10 % 10), digitChar (y % 10), '-',
    digitChar (mo / 10 % 10), digitChar (mo % 10), '-',
    digitChar (dd / 10 % 10), digitChar (dd % 10), 'T',
    digitChar (hh / 10 % 10), digitChar (hh % 10), ':',
    digitChar (mi / 10 % 10), digitChar (mi % 10), ':',
    digitChar (ss / 10 % 10), digitChar (ss % 10), '.',
    digitChar (ms / 100 % 10), digitChar (ms / 10 % 10), digitChar (ms % 10),
    'Z']⟩ = _
  unfold parseISOUtc
  simp only [digitVal_digitChar, isDigitChar_digitChar, List.all_cons, List.all_nil,
    Bool.and_self, Bool.and_true]
  split
  case isFalse hcond =>
    exact absurd ⟨trivial, trivial, trivial, trivial, trivial, trivial, trivial,
      trivial⟩ hcond
  case isTrue hcond =>
    have ey : 1000 * (y / 1000 % 10 % 10) + 100 * (y / 100 % 10 % 10)
        + 10 * (y / 10 % 10 % 10) + y % 10 % 10 = y := by omega
    have emo : 10 * (mo / 10 % 10 % 10) + mo % 10 % 10 = mo := by omega
    have edd : 10 * (dd / 10 % 10 % 10) + dd % 10 % 10 = dd := by omega
    have ehh : 10 * (hh / 10 % 10 % 10) + hh % 10 % 10 = hh := by omega
    have emi : 10 * (mi / 10 % 10 % 10) + mi % 10 % 10 = mi := by omega
    have ess : 10 * (ss / 10 % 10 % 10) + ss % 10 % 10 = ss := by omega
    have ems : 100 * (ms / 100 % 10 % 10) + 10 * (ms / 10 % 10 % 10)
        + ms % 10 % 10 = ms := by omega
    rw [ey, emo, edd, ehh, emi, ess, ems]
    rw [if_pos (by omega)]

theorem parseISO_roundtrip (t : Nat) (h : t < 253402300800000) :
    parseISOUtc (toISOString t) = some t := by
  have hdoe : (t / 86400000 + 719468) % 146097 ≤ 146096 := by omega
  obtain ⟨hmo1, hmo2, hdd1, hdd2⟩ := month_day_bounds _ hdoe
  have hyge : 1970 ≤ yearOf ((t / 86400000 + 719468) / 146097)
      ((t / 86400000 + 719468) % 146097) :=
    year_ge_1970 _ _ hdoe (by omega)
  have hyle : yearOf ((t / 86400000 + 719468) / 146097)
      ((t / 86400000 + 719468) % 146097) ≤ 9999 :=
    year_le_9999 _ _ hdoe (by omega)
  have hc1 : (civilFromDays (t / 86400000)).1
      = yearOf ((t / 86400000 + 719468) / 146097) ((t / 86400000 + 719468) % 146097) := rfl
  have hc2 : (civilFromDays (t / 86400000)).2.1
      = monthOfDoe ((t / 86400000 + 719468) % 146097) := rfl
  have hc3 : (civilFromDays (t / 86400000)).2.2
      = dayOfDoe ((t / 86400000 + 719468) % 146097) := rfl
  unfold toISOString
  rw [parse_format_general _ _ _ _ _ _ _
    (by rw [hc1]; exact hyge) (by rw [hc1]; exact hyle)
    (by rw [hc2]; exact hmo1) (by rw [hc2]; exact hmo2)
    (by rw [hc3]; exact hdd1) (by rw [hc3]; exact hdd2)
    (by omega) (by omega) (by omega) (by omega)]
  rw [days_roundtrip]
  exact congrArg some (by omega)

/-- A `Message` as it sits in the serialized store: `JSON.stringify` turns the
`Date` into its ISO string, all other fields are preserved structurally. -/
structure StoredMessage where
  id : String
  role : Role
  content : String
  timestamp : String
  imageUrl : Option String
  imageUrls : Option (List String)
  generatedImage : Option String
  imagePrompt : Option String
deriving DecidableEq, Repr

/-- A `SavedChat` as it sits in the serialized store. -/
structure StoredChat where
  id : String
  title : String
  messages : List StoredMessage
  createdAt : String
  updatedAt : String
deriving DecidableEq, Repr

/-- Serialization of one message (`JSON.stringify` on a `Message`). -/
def stringifyMessage (m : Message) : StoredMessage :=
  { id := m.id, role := m.role, content := m.content,
    timestamp := toISOString m.timestamp,
    imageUrl := m.imageUrl, imageUrls := m.imageUrls,
    generatedImage := m.generatedImage, imagePrompt := m.imagePrompt }

/-- Serialization of one conversation. -/
def stringifyChat (c : SavedChat) : StoredChat :=
  { id := c.id, title := c.title, messages := c.messages.map stringifyMessage,
    createdAt := toISOString c.createdAt, updatedAt := toISOString c.updatedAt }

/-- The `localStorage.setItem` write of the serialized conversations
(`chat-interface.tsx` lines 233 and 250), up to the JSON text layer. -/
def stringifySavedChats (chats : List SavedChat) : List StoredChat :=
  chats.map stringifyChat

/-- `new Date(string)` in the load effect; a string the UTC parser rejects is
an Invalid Date, collapsed to timestamp 0 here (never hit on round trips). -/
def newDateFromString (s : String) : Nat :=
  (parseISOUtc s).getD 0

/-- Date reconstruction for one message in the load effect
(`chat-interface.tsx` lines 66–69). -/
def parseStoredMessage (m : StoredMessage) : Message :=
  { id := m.id, role := m.role, content := m.content,
    timestamp := newDateFromString m.timestamp,
    imageUrl := m.imageUrl, imageUrls := m.imageUrls,
    generatedImage := m.generatedImage, imagePrompt := m.imagePrompt }

/-- Date reconstruction for one conversation in the load effect
(`chat-interface.tsx` lines 62–70). -/
def parseStoredChat (c : StoredChat) : SavedChat :=
  { id := c.id, title := c.title, messages := c.messages.map parseStoredMessage,
    createdAt := newDateFromString c.createdAt,
    updatedAt := newDateFromString c.updatedAt }

/-- The load effect of `chat-interface.tsx` lines 58–76 applied to a present,
well-formed store: `JSON.parse` followed by per-chat date reconstruction. -/
def loadSavedChats (stored : List StoredChat) : List SavedChat :=
  stored.map parseStoredChat

theorem stringify_message_roundtrip (m : Message) (h : m.timestamp < 253402300800000) :
    parseStoredMessage (stringifyMessage m) = m := by
  unfold parseStoredMessage stringifyMessage newDateFromString
  rw [parseISO_roundtrip m.timestamp h]
  rfl

theorem map_stringify_roundtrip (ms : List Message)
    (h : ∀ m ∈ ms, m.timestamp < 253402300800000) :
    ms.map (fun m => parseStoredMessage (stringifyMessage m)) = ms := by
  induction ms with
  | nil => rfl
  | cons a l ih =>
    simp only [List.map_cons]
    rw [stringify_message_roundtrip a (h a (by simp)),
        ih (fun m hm => h m (by simp [hm]))]

theorem stringify_chat_roundtrip (c : SavedChat)
    (h1 : c.createdAt < 253402300800000) (h2 : c.updatedAt < 253402300800000)
    (h3 : ∀ m ∈ c.messages, m.timestamp < 253402300800000) :
    parseStoredChat (stringifyChat c) = c := by
  unfold parseStoredChat stringifyChat newDateFromString
  rw [parseISO_roundtrip c.createdAt h1, parseISO_roundtrip c.updatedAt h2]
  simp only [List.map_map, Function.comp_def, Option.getD_some]
  rw [map_stringify_roundtrip c.messages h3]

/-! ## Claim theorems -/

/-- Claim C9: the chat relay derives its two sampling parameters solely from
the response-mode selector — maximum response length 3000/2000/1000 and
temperature 0.8/0.7/0.6 for `detailed`/`balanced`/`concise`, with `detailed`
used when no selector is supplied. -/
theorem C9_sampling_parameters :
    maxTokensFor ("detailed") = 3000 ∧ maxTokensFor ("balanced") = 2000 ∧
    maxTokensFor ("concise") = 1000 ∧
    temperatureFor ("detailed") = 8 / 10 ∧ temperatureFor ("balanced") = 7 / 10 ∧
    temperatureFor ("concise") = 6 / 10 ∧
    effectiveResponseMode none = "detailed" ∧
    maxTokensFor (effectiveResponseMode none) = 3000 ∧
    temperatureFor (effectiveResponseMode none) = 8 / 10 := by
  refine ⟨rfl, ?_, ?_, rfl, ?_, ?_, rfl, rfl, rfl⟩ <;>
    simp [maxTokensFor, temperatureFor]

/-- Claim C10: a user message relayed with image references but empty text
gets the fixed placeholder text (`What\x27s in these images?`) as the text part of its
multi-part block. -/
theorem C10_empty_content_placeholder (msg : MessageWithImage)
    (h1 : msg.role = Role.user) (h2 : msgHasImages msg = true)
    (h3 : msg.content = "") :
    processMessage msg
      = { role := Role.user,
          content := ChatContent.parts
            (ContentPart.text ("What\x27s in these images?")
              :: (messageRefs msg).map ContentPart.image) } := by
  unfold processMessage
  rw [if_pos ⟨h1, h2⟩, h3]
  rw [if_neg (by simp)]

/-- A user message with one uploaded image and empty text, as produced by an
image-only turn. -/
def imageOnlyWireMessage : MessageWithImage :=
  { role := Role.user, content := "", imageUrl := none,
    imageUrls := some ["data:image/png;base64,AAAA"] }

/-- Witness for C10 at a concrete image-only message. -/
theorem C10_witness :
    processMessage imageOnlyWireMessage
      = { role := Role.user,
          content := ChatContent.parts
            (ContentPart.text ("What\x27s in these images?")
              :: (messageRefs imageOnlyWireMessage).map ContentPart.image) } :=
  C10_empty_content_placeholder imageOnlyWireMessage rfl (by decide) rfl

/-- An assistant request message that carries an image reference: the relay
does not restructure it, refuting claim C3 as stated. -/
def assistantWithImage : MessageWithImage :=
  { role := Role.assistant, content := "hi", imageUrl := some ("http://x"),
    imageUrls := none }

/-- Claim C3 counterexample: `assistantWithImage` carries an image reference,
yet the relay passes it through as a plain-content message instead of
restructuring it into a multi-part block (the restructuring applies only to
messages with role `user`). -/
theorem C3_counterexample :
    msgHasImages assistantWithImage = true ∧
    processMessage assistantWithImage
      = { role := Role.assistant, content := ChatContent.str ("hi") } := by
  decide

/-- Claim C3 (amended): every *user* message carrying image references is
restructured into one text part plus one image part per reference; every
other message — without image references, or with a non-user role — passes
through with its role and text content unchanged. -/
theorem C3_image_restructuring (msg : MessageWithImage) :
    (msg.role = Role.user → msgHasImages msg = true →
      processMessage msg
        = { role := Role.user,
            content := ChatContent.parts
              (ContentPart.text
                  (if msg.content ≠ "" then msg.content
                   else ("What\x27s in these images?"))
                :: (messageRefs msg).map ContentPart.image) } ∧
      (ContentPart.text
          (if msg.content ≠ "" then msg.content
           else ("What\x27s in these images?"))
        :: (messageRefs msg).map ContentPart.image).length
        = 1 + (messageRefs msg).length) ∧
    (¬(msg.role = Role.user ∧ msgHasImages msg = true) →
      processMessage msg = { role := msg.role, content := ChatContent.str msg.content }) := by
  constructor
  · intro h1 h2
    constructor
    · unfold processMessage
      rw [if_pos ⟨h1, h2⟩]
    · simp [List.length_map]
      omega
  · intro h
    unfold processMessage
    rw [if_neg h]

/-- A user wire message with both text and two image references. -/
def userTwoImagesMessage : MessageWithImage :=
  { role := Role.user, content := "o que há nas fotos?", imageUrl := none,
    imageUrls := some ["data:a", "data:b"] }

/-- Witness for C3 at a concrete user message with two image references. -/
theorem C3_witness :
    processMessage userTwoImagesMessage
      = { role := Role.user,
          content := ChatContent.parts
            (ContentPart.text
                (if userTwoImagesMessage.content ≠ "" then userTwoImagesMessage.content
                 else ("What\x27s in these images?"))
              :: (messageRefs userTwoImagesMessage).map ContentPart.image) } :=
  ((C3_image_restructuring userTwoImagesMessage).1 rfl (by decide)).1

/-- Claim C2 counterexample: at a well-formed JSON body whose `messages`
field is missing, `/api/chat` answers 400 with a body `{ error: … }` that has
no `success` field at all — likewise `/api/generate-image` for a missing
`prompt` — so not every failure body is `{ success: false, error }`. -/
theorem C2_counterexample :
    (chatPOST (some ("k")) (some { messages := none, responseMode := none })
        (UpstreamChat.ok none)).status = 400 ∧
    (chatPOST (some ("k")) (some { messages := none, responseMode := none })
        (UpstreamChat.ok none)).success ≠ some false ∧
    (generateImagePOST (some ("k")) (some { prompt := none })
        (UpstreamImage.ok none)).status = 400 ∧
    (generateImagePOST (some ("k")) (some { prompt := none })
        (UpstreamImage.ok none)).success ≠ some false := by
  decide

/-- Claim C2 (amended): every response of the two handlers is exactly one of —
200 with `{ success: true, … }`; 400 (malformed input) with an `error` string
but no `success` field; 500 with `{ success: false, error }`.  In particular
every failure carries a non-2xx status and an error string, but the
malformed-input body lacks `success: false`. -/
theorem C2_response_envelope :
    (∀ (apiKey : Option String) (body : Option ChatRequestBody) (up : UpstreamChat),
      ((chatPOST apiKey body up).status = 200
          ∧ (chatPOST apiKey body up).success = some true
          ∧ (chatPOST apiKey body up).message.isSome = true) ∨
      ((chatPOST apiKey body up).status = 400
          ∧ (chatPOST apiKey body up).success = none
          ∧ (chatPOST apiKey body up).error.isSome = true) ∨
      ((chatPOST apiKey body up).status = 500
          ∧ (chatPOST apiKey body up).success = some false
          ∧ (chatPOST apiKey body up).error.isSome = true)) ∧
    (∀ (apiKey : Option String) (body : Option ImageRequestBody) (up : UpstreamImage),
      ((generateImagePOST apiKey body up).status = 200
          ∧ (generateImagePOST apiKey body up).success = some true
          ∧ (generateImagePOST apiKey body up).imageUrl.isSome = true) ∨
      ((generateImagePOST apiKey body up).status = 400
          ∧ (generateImagePOST apiKey body up).success = none
          ∧ (generateImagePOST apiKey body up).error.isSome = true) ∨
      ((generateImagePOST apiKey body up).status = 500
          ∧ (generateImagePOST apiKey body up).success = some false
          ∧ (generateImagePOST apiKey body up).error.isSome = true)) := by
  constructor
  · intro apiKey body up
    rcases apiKey with _ | k
    · right; right; exact ⟨rfl, rfl, rfl⟩
    · rcases body with _ | b
      · right; right; exact ⟨rfl, rfl, rfl⟩
      · rcases b with ⟨msgs, rm⟩
        rcases msgs with _ | msgs
        · right; left; exact ⟨rfl, rfl, rfl⟩
        · rcases up with c | _
          · left; exact ⟨rfl, rfl, rfl⟩
          · right; right; exact ⟨rfl, rfl, rfl⟩
  · intro apiKey body up
    rcases apiKey with _ | k
    · right; right; exact ⟨rfl, rfl, rfl⟩
    · rcases body with _ | b
      · right; right; exact ⟨rfl, rfl, rfl⟩
      · rcases b with ⟨p⟩
        rcases p with _ | p
        · right; left; exact ⟨rfl, rfl, rfl⟩
        · by_cases hp : p = ""
          · subst hp
            right; left
            refine ⟨?_, ?_, ?_⟩ <;> simp [generateImagePOST]
          · rcases up with u | _
            · rcases u with _ | u
              · right; right
                refine ⟨?_, ?_, ?_⟩ <;> simp [generateImagePOST, hp]
              · by_cases hu : u = ""
                · subst hu
                  right; right
                  refine ⟨?_, ?_, ?_⟩ <;> simp [generateImagePOST, hp]
                · left
                  refine ⟨?_, ?_, ?_⟩ <;> simp [generateImagePOST, hp, hu]
            · right; right
              refine ⟨?_, ?_, ?_⟩ <;> simp [generateImagePOST, hp]

/-- Claim C4: the intent detector returns true exactly when the lower-cased
input contains one of the fixed multilingual keywords as a substring; and a
turn submitted with any uploaded image attached is routed to the chat relay
only, never to image generation, regardless of keywords. -/
theorem C4_intent_detector :
    (∀ text : String,
      isImageGenerationRequest text = true ↔
        ∃ keyword ∈ imageKeywords, keyword.data <:+: (jsToLower text).data) ∧
    (∀ (st : ChatState) (nowMs : Nat) (g : Option String) (r : ChatApiResult),
      st.selectedImages ≠ [] → st.isLoading = false →
      (handleSubmit st nowMs g r).2
        = [RelayCall.chat ((st.messages ++ [mkUserMessage st nowMs]).map toWire)]) := by
  constructor
  · intro text
    simp only [isImageGenerationRequest, jsIncludes, List.any_eq_true,
      decide_eq_true_eq]
  · intro st nowMs g r himg hload
    have hguard : ¬((jsTrim st.input = "" ∧ st.selectedImages = [])
        ∨ st.isLoading = true) := by
      rintro (⟨_, h2⟩ | h2)
      · exact himg h2
      · rw [hload] at h2
        exact Bool.false_ne_true h2
    simp only [handleSubmit]
    rw [if_neg hguard, if_neg (fun hc => himg hc.2)]

/-- A state whose turn has both image-generation keywords and an uploaded
image attached. -/
def stateWithUpload : ChatState :=
  { messages := [], input := "generate image of a cat", isLoading := false,
    selectedImages := ["data:image/png;base64,AAAA"], savedChats := [],
    currentChatId := none }

/-- Witness for C4: submitting `stateWithUpload` issues exactly one chat-relay
call and no image-generation call. -/
theorem C4_witness :
    (handleSubmit stateWithUpload 5 none ChatApiResult.fail).2
      = [RelayCall.chat
          ((stateWithUpload.messages ++ [mkUserMessage stateWithUpload 5]).map toWire)] :=
  C4_intent_detector.2 stateWithUpload 5 none ChatApiResult.fail (by decide) rfl

/-- Claim C6: submitting while a prior exchange is in flight, or submitting a
turn with neither non-whitespace text nor attached images, is a no-op: the
state (message list included) is unchanged and no relay is invoked. -/
theorem C6_submit_noop (st : ChatState) (nowMs : Nat) (g : Option String)
    (r : ChatApiResult)
    (h : (jsTrim st.input = "" ∧ st.selectedImages = []) ∨ st.isLoading = true) :
    (handleSubmit st nowMs g r).1 = st ∧ (handleSubmit st nowMs g r).2 = [] := by
  unfold handleSubmit
  rw [if_pos h]
  exact ⟨rfl, rfl⟩

/-- A state with a whitespace-only composed turn and no attached images. -/
def stateBlankTurn : ChatState :=
  { messages := [], input := "   ", isLoading := false, selectedImages := [],
    savedChats := [], currentChatId := none }

/-- Witness for C6: submitting a whitespace-only turn leaves the state
unchanged and issues no relay call. -/
theorem C6_witness :
    (handleSubmit stateBlankTurn 7 none ChatApiResult.fail).1 = stateBlankTurn ∧
    (handleSubmit stateBlankTurn 7 none ChatApiResult.fail).2 = [] :=
  C6_submit_noop stateBlankTurn 7 none ChatApiResult.fail (Or.inl ⟨by decide, rfl⟩)

/-- Claim C7: deleting the conversation whose identifier equals the active
one removes every conversation with that identifier from the saved set and,
in the same operation, clears the active conversation to the empty state. -/
theorem C7_delete_active_chat (st : ChatState) (chatId : String)
    (h : st.currentChatId = some chatId) :
    (deleteChat st chatId).messages = [] ∧
    (deleteChat st chatId).input = "" ∧
    (deleteChat st chatId).selectedImages = [] ∧
    (deleteChat st chatId).currentChatId = none ∧
    (deleteChat st chatId).savedChats
        = st.savedChats.filter (fun chat => decide (chat.id ≠ chatId)) ∧
    ((deleteChat st chatId).savedChats.all fun chat => decide (chat.id ≠ chatId))
        = true := by
  simp only [deleteChat]
  rw [if_pos h]
  refine ⟨rfl, rfl, rfl, rfl, rfl, ?_⟩
  rw [List.all_eq_true]
  intro chat hc
  exact (List.mem_filter.mp hc).2

/-- A state whose active conversation `"1"` is among the saved ones. -/
def stateWithActiveSaved : ChatState :=
  { messages := [{ id := "9", role := Role.user, content := "oi", timestamp := 3,
                   imageUrl := none, imageUrls := none, generatedImage := none,
                   imagePrompt := none }],
    input := "draft", isLoading := false, selectedImages := ["data:x"],
    savedChats := [{ id := "1", title := "t", messages := [], createdAt := 0,
                     updatedAt := 0 },
                   { id := "2", title := "u", messages := [], createdAt := 0,
                     updatedAt := 0 }],
    currentChatId := some ("1") }

/-- Witness for C7 at a concrete state whose active conversation is saved. -/
theorem C7_witness :
    (deleteChat stateWithActiveSaved ("1")).messages = [] ∧
    (deleteChat stateWithActiveSaved ("1")).input = "" ∧
    (deleteChat stateWithActiveSaved ("1")).selectedImages = [] ∧
    (deleteChat stateWithActiveSaved ("1")).currentChatId = none ∧
    (deleteChat stateWithActiveSaved ("1")).savedChats
        = stateWithActiveSaved.savedChats.filter (fun chat => decide (chat.id ≠ "1")) ∧
    ((deleteChat stateWithActiveSaved ("1")).savedChats.all
        fun chat => decide (chat.id ≠ "1")) = true :=
  C7_delete_active_chat stateWithActiveSaved ("1") rfl

theorem find?_append_of_any {α : Type} (p : α → Bool) (l₁ l₂ : List α)
    (h : l₁.any p = true) : (l₁ ++ l₂).find? p = l₁.find? p := by
  induction l₁ with
  | nil => simp at h
  | cons a l ih =>
    by_cases hp : p a = true
    · simp [List.find?_cons, hp]
    · have hpa : p a = false := by
        cases hna : p a
        · rfl
        · exact absurd hna hp
      simp only [List.any_cons, hpa, Bool.false_or] at h
      simp [List.find?_cons, hpa, ih h]

/-- A first user message whose text is empty (an image-only turn), refuting
claim C8 as stated. -/
def emptyTextUserMessage : Message :=
  { id := "1", role := Role.user, content := "", timestamp := 0,
    imageUrl := none, imageUrls := some ["data:x"], generatedImage := none,
    imagePrompt := none }

/-- Claim C8 counterexample: the text of the first user message is empty — within
the 50-character limit — yet the derived title is the date fallback, not that
text. -/
theorem C8_counterexample :
    emptyTextUserMessage.content.data.length ≤ 50 ∧
    generateChatTitle [emptyTextUserMessage] "01/01/2025"
      ≠ emptyTextUserMessage.content := by
  decide

/-- Claim C8 (amended): the derived title equals the text of the first user message
when that text is non-empty and at most 50 characters; equals its first 50
characters plus a trailing ellipsis when longer; falls back to a date-based
default when the text of the first user message is empty; and is unchanged by
messages appended after a user message exists. -/
theorem C8_title_derivation :
    (∀ (msgs : List Message) (dateStr : String) (m : Message),
      (msgs.find? fun msg => decide (msg.role = Role.user)) = some m →
      m.content ≠ "" →
      (m.content.data.length ≤ 50 → generateChatTitle msgs dateStr = m.content) ∧
      (50 < m.content.data.length →
        generateChatTitle msgs dateStr
          = String.mk (m.content.data.take 50) ++ "...")) ∧
    (∀ (msgs : List Message) (dateStr : String) (m : Message),
      (msgs.find? fun msg => decide (msg.role = Role.user)) = some m →
      m.content = "" →
      generateChatTitle msgs dateStr = "Conversa " ++ dateStr) ∧
    (∀ (msgs more : List Message) (dateStr : String),
      (msgs.any fun msg => decide (msg.role = Role.user)) = true →
      generateChatTitle (msgs ++ more) dateStr = generateChatTitle msgs dateStr) := by
  refine ⟨?_, ?_, ?_⟩
  · intro msgs dateStr m hfind hne
    unfold generateChatTitle
    rw [hfind]
    dsimp only
    rw [if_pos hne]
    constructor
    · intro hlen
      rw [if_neg (by omega), List.take_of_length_le hlen]
      show String.mk m.content.data ++ "" = m.content
      rw [String.append_empty]
    · intro hlen
      rw [if_pos hlen]
  · intro msgs dateStr m hfind he
    unfold generateChatTitle
    rw [hfind]
    dsimp only
    rw [if_neg (by simp [he])]
  · intro msgs more dateStr hany
    unfold generateChatTitle
    rw [find?_append_of_any _ msgs more hany]

/-- A one-message conversation whose first user message says `"hello"`. -/
def helloMessage : Message :=
  { id := "1", role := Role.user, content := "hello", timestamp := 0,
    imageUrl := none, imageUrls := none, generatedImage := none,
    imagePrompt := none }

/-- Witness for C8: the derived title of a short first user message is that
text of that message. -/
theorem C8_witness :
    generateChatTitle [helloMessage] "01/01/2025" = helloMessage.content :=
  (C8_title_derivation.1 [helloMessage] "01/01/2025" helloMessage rfl
    (by decide)).1 (by decide)

/-- The assistant messages a submitted turn appends, by branch of
`handleSubmit`: the generated-image message on image-generation success; the
local fallback message *followed by the chat-relay outcome* when image
generation fails; the chat-relay outcome alone otherwise. -/
def assistantReplies (st : ChatState) (nowMs : Nat) (genResult : Option String)
    (chatResult : ChatApiResult) : List Message :=
  if isImageGenerationRequest (jsTrim st.input) = true ∧ st.selectedImages = [] then
    match genResult with
    | some url =>
      if url ≠ "" then [genSuccessMessage nowMs url (jsTrim st.input)]
      else [imageFallbackMessage nowMs, chatOutcomeMessage nowMs chatResult]
    | none => [imageFallbackMessage nowMs, chatOutcomeMessage nowMs chatResult]
  else [chatOutcomeMessage nowMs chatResult]

/-- A pending turn asking for an image, with no uploads and nothing in
flight. -/
def stateGenRequest : ChatState :=
  { messages := [], input := "generate image of a cat", isLoading := false,
    selectedImages := [], savedChats := [], currentChatId := none }

/-- Claim C1 counterexample: when image generation fails, the submitted turn
ends with *two* appended assistant messages (the local fallback and then the
chat-relay reply), not exactly one. -/
theorem C1_counterexample :
    ((handleSubmit stateGenRequest 1000 none (ChatApiResult.ok ("resp"))).1.messages.filter
        fun m => decide (m.role = Role.assistant)).length = 2 ∧
    stateGenRequest.messages = [] := by
  decide

/-- Claim C1 (amended): every submitted turn appends the user message
optimistically and then at least one assistant message — exactly one (a
relay success result or a locally-synthesized fallback), except that a failed
image-generation attempt appends two: the local fallback message and then the
chat-relay outcome.  In no case does a submitted turn end with zero assistant
messages appended. -/
theorem C1_turn_response (st : ChatState) (nowMs : Nat) (g : Option String)
    (r : ChatApiResult)
    (h : ¬((jsTrim st.input = "" ∧ st.selectedImages = []) ∨ st.isLoading = true)) :
    (handleSubmit st nowMs g r).1.messages
      = st.messages ++ mkUserMessage st nowMs :: assistantReplies st nowMs g r ∧
    assistantReplies st nowMs g r ≠ [] ∧
    ((assistantReplies st nowMs g r).all fun m => decide (m.role = Role.assistant))
      = true ∧
    ((assistantReplies st nowMs g r).length = 1 ∨
      ((assistantReplies st nowMs g r).length = 2 ∧
        isImageGenerationRequest (jsTrim st.input) = true ∧
        st.selectedImages = [] ∧ (g = none ∨ g = some ("")))) := by
  have hroleC : ∀ r', (chatOutcomeMessage nowMs r').role = Role.assistant := by
    intro r'
    cases r' <;> rfl
  simp only [handleSubmit, assistantReplies]
  rw [if_neg h]
  by_cases hc : isImageGenerationRequest (jsTrim st.input) = true
      ∧ st.selectedImages = []
  · rw [if_pos hc, if_pos hc]
    cases g with
    | none =>
      dsimp only
      refine ⟨by simp, by simp, ?_, Or.inr ⟨rfl, hc.1, hc.2, Or.inl rfl⟩⟩
      simp [List.all_cons, hroleC, imageFallbackMessage]
    | some url =>
      dsimp only
      by_cases hu : url ≠ ""
      · rw [if_pos hu, if_pos hu]
        refine ⟨by simp, by simp, ?_, Or.inl rfl⟩
        simp [genSuccessMessage]
      · rw [if_neg hu, if_neg hu]
        push_neg at hu
        refine ⟨by simp, by simp, ?_,
          Or.inr ⟨rfl, hc.1, hc.2, Or.inr (by rw [hu])⟩⟩
        simp [List.all_cons, hroleC, imageFallbackMessage]
  · rw [if_neg hc, if_neg hc]
    refine ⟨by simp, by simp, ?_, Or.inl rfl⟩
    simp [hroleC]

/-- Witness for C1: a successful image-generation turn at a concrete state
appends the user message and exactly one assistant message. -/
theorem C1_witness :
    (handleSubmit stateGenRequest 1000 (some ("http://img")) (ChatApiResult.ok ("resp"))).1.messages
      = stateGenRequest.messages
        ++ mkUserMessage stateGenRequest 1000
          :: assistantReplies stateGenRequest 1000 (some ("http://img"))
              (ChatApiResult.ok ("resp")) ∧
    assistantReplies stateGenRequest 1000 (some ("http://img"))
        (ChatApiResult.ok ("resp")) ≠ [] ∧
    ((assistantReplies stateGenRequest 1000 (some ("http://img"))
        (ChatApiResult.ok ("resp"))).all
      fun m => decide (m.role = Role.assistant)) = true ∧
    ((assistantReplies stateGenRequest 1000 (some ("http://img"))
        (ChatApiResult.ok ("resp"))).length = 1 ∨
      ((assistantReplies stateGenRequest 1000 (some ("http://img"))
          (ChatApiResult.ok ("resp"))).length = 2 ∧
        isImageGenerationRequest (jsTrim stateGenRequest.input) = true ∧
        stateGenRequest.selectedImages = [] ∧
        (some ("http://img") = none ∨ some ("http://img") = some ("")))) :=
  C1_turn_response stateGenRequest 1000 (some ("http://img")) (ChatApiResult.ok ("resp"))
    (by decide)

theorem map_chat_roundtrip (cs : List SavedChat)
    (h : ∀ c ∈ cs, c.createdAt < 253402300800000 ∧ c.updatedAt < 253402300800000 ∧
      ∀ m ∈ c.messages, m.timestamp < 253402300800000) :
    cs.map (fun c => parseStoredChat (stringifyChat c)) = cs := by
  induction cs with
  | nil => rfl
  | cons c l ih =>
    obtain ⟨h1, h2, h3⟩ := h c (by simp)
    simp only [List.map_cons]
    rw [stringify_chat_roundtrip c h1 h2 h3,
        ih (fun c' hc' => h c' (by simp [hc']))]

/-- Claim C5: saving a set of conversations through the persistence adapter
and loading it back yields the very same conversations — every `createdAt`,
`updatedAt` and per-message timestamp compares equal at millisecond
resolution and message ordering is preserved exactly — for timestamps within
the four-digit-year range the ISO serialization covers (before the year
10000). -/
theorem C5_persistence_roundtrip (chats : List SavedChat)
    (h : ∀ c ∈ chats, c.createdAt < 253402300800000 ∧
      c.updatedAt < 253402300800000 ∧
      ∀ m ∈ c.messages, m.timestamp < 253402300800000) :
    loadSavedChats (stringifySavedChats chats) = chats := by
  unfold loadSavedChats stringifySavedChats
  simp only [List.map_map, Function.comp_def]
  exact map_chat_roundtrip chats h

/-- A concrete saved conversation with realistic timestamps. -/
def sampleSavedChat : SavedChat :=
  { id := "1700000000000", title := "amostra",
    messages :=
      [{ id := "1700000000000", role := Role.user, content := "olá",
         timestamp := 1700000000000, imageUrl := none, imageUrls := none,
         generatedImage := none, imagePrompt := none },
       { id := "1700000000001", role := Role.assistant, content := "oi!",
         timestamp := 1700000000456, imageUrl := none, imageUrls := none,
         generatedImage := none, imagePrompt := none }],
    createdAt := 1700000000789, updatedAt := 1700000012345 }

/-- Witness for C5 at a concrete one-conversation store. -/
theorem C5_witness :
    loadSavedChats (stringifySavedChats [sampleSavedChat]) = [sampleSavedChat] :=
  C5_persistence_roundtrip [sampleSavedChat] (by decide)
